import Mathlib

/-!
Verification of the file-operation tool library (`multi-tool-agent/file_ops.py`)
and of the Telegram chat front end (`telegram-agent/telegram_bot.py`).

The host filesystem is modelled as an association list from path strings to
file contents together with the set of existing directory paths.  Each tool
function is translated into a Lean function over this state that returns a
result structure mirroring the status dictionary built by the Python code.
Exception messages (`str(e)`) are abbreviated to the exception kind, since no
property under verification inspects them; every other field is kept.
-/

namespace FileOps

/-- The filesystem state read and mutated by the tools in `file_ops.py`:
an association list from path strings to file contents (lookups take the
first binding) plus the set of existing directories. -/
structure FS where
  files : List (String × String)
  dirs : List String
  deriving Repr, DecidableEq

/-- Content of the regular file at `p`, if one exists. -/
def FS.fileContent (fs : FS) (p : String) : Option String :=
  (fs.files.find? (fun e => e.1 == p)).map Prod.snd

/-- Whether a regular file exists at `p`, as `os.path.isfile` reports. -/
def FS.isFile (fs : FS) (p : String) : Bool :=
  (fs.fileContent p).isSome

/-- Whether a directory exists at `p`, as `os.path.isdir` reports. -/
def FS.isDir (fs : FS) (p : String) : Bool :=
  fs.dirs.contains p

/-- `os.path.exists`: true for files and directories alike. -/
def FS.pathExists (fs : FS) (p : String) : Bool :=
  fs.isFile p || fs.isDir p

/-- Effect of `open(p, "w")` followed by writing content `c`. -/
def FS.setFile (fs : FS) (p c : String) : FS :=
  { fs with files := (p, c) :: fs.files }

/-- Effect of `os.remove p` on a regular file. -/
def FS.removeFile (fs : FS) (p : String) : FS :=
  { fs with files := fs.files.filter (fun e => !(e.1 == p)) }

/-- Split a character list at every occurrence of `c`; always at least one
(possibly empty) segment, like Python `str.split(sep)` with a separator. -/
def splitOnCharList (c : Char) : List Char → List (List Char)
  | [] => [[]]
  | x :: rest =>
      let r := splitOnCharList c rest
      if x = c then [] :: r
      else
        match r with
        | [] => [[x]]
        | y :: ys => (x :: y) :: ys

/-- `s.split(c)` for a one-character separator `c`. -/
def splitOnChar (c : Char) (s : String) : List String :=
  (splitOnCharList c s.data).map String.mk

/-- Whether the first character of `s` is `c`. -/
def startsWithChar (c : Char) (s : String) : Bool :=
  match s.data with
  | [] => false
  | x :: _ => x = c

/-- Whether the last character of `s` is `c`. -/
def endsWithChar (c : Char) (s : String) : Bool :=
  match s.data.reverse with
  | [] => false
  | x :: _ => x = c

/-- `os.path.join(a, b)` for POSIX paths: `b` when absolute, otherwise `a`
and `b` joined with a single separator. -/
def osJoin (a b : String) : String :=
  if startsWithChar '/' b then b
  else if a = "" then b
  else if endsWithChar '/' a then a ++ b
  else a ++ "/" ++ b

/-- The chain of paths `os.makedirs p` walks: every component-wise
initial segment of `p`, the full path included. -/
def pathChain (p : String) : List String :=
  let parts := splitOnChar '/' p
  (List.range parts.length).map (fun i => String.intercalate "/" (parts.take (i + 1)))

/-- `os.makedirs(p, exist_ok)`: creates `p` and every missing ancestor.
It raises (modelled as `none`) when a path on the chain already exists as a
regular file, or when `p` itself already exists and `exist_ok` is false. -/
def makedirs (fs : FS) (p : String) (exist_ok : Bool) : Option FS :=
  if (pathChain p).any (fun q => fs.isFile q) then none
  else if fs.isDir p && !exist_ok then none
  else some { fs with dirs := pathChain p ++ fs.dirs }

/-- `pathlib.Path(p).parent` rendered as a string (`"."` for a bare name,
`"/"`-rooted for absolute paths). -/
def parentDir (p : String) : String :=
  let parts := (splitOnChar '/' p).filter (fun s => s ≠ "")
  if startsWithChar '/' p then "/" ++ String.intercalate "/" parts.dropLast
  else
    match parts.dropLast with
    | [] => "."
    | ps => String.intercalate "/" ps

/-- Result dictionary of `mkdir` in `file_ops.py`. -/
structure MkdirResult where
  status : String
  path : Option String := none
  message : Option String := none
  deriving Repr, DecidableEq

/-- `mkdir(dir_location, dir_name)` from `file_ops.py`:
`os.makedirs(os.path.join(dir_location, dir_name), exist_ok=True)` inside
try/except, returning a status dictionary either way. -/
def mkdir (fs : FS) (dir_location dir_name : String) : FS × MkdirResult :=
  let full_path := osJoin dir_location dir_name
  match makedirs fs full_path true with
  | some fs1 => (fs1, { status := "success", path := some full_path })
  | none => (fs, { status := "error",
                   message := some "Failed to create directory: FileExistsError" })

/-- Universal-newline translation performed by text-mode reads:
`"\r\n"` and a lone `"\r"` both become `"\n"`. -/
def univNewlinesList : List Char → List Char
  | [] => []
  | ['\r'] => ['\n']
  | '\r' :: '\n' :: rest => '\n' :: univNewlinesList rest
  | '\r' :: c :: rest => '\n' :: univNewlinesList (c :: rest)
  | c :: rest => c :: univNewlinesList rest

/-- Universal-newline translation on strings. -/
def univNewlines (s : String) : String :=
  String.mk (univNewlinesList s.data)

/-- Result dictionary of `read_file` in `file_ops.py`. -/
structure ReadResult where
  status : String
  content : Option String := none
  file_path : Option String := none
  file_size : Option Nat := none
  message : Option String := none
  deriving Repr, DecidableEq

/-- `read_file(file_path)` from `file_ops.py`: opens the file in text mode
(universal newlines), reads everything, and reports `os.path.getsize` —
the UTF-8 byte size.  A missing file (or a directory) raises inside the
`try`, caught into an error dictionary. -/
def read_file (fs : FS) (file_path : String) : ReadResult :=
  match fs.fileContent file_path with
  | some c =>
      { status := "success", content := some (univNewlines c),
        file_path := some file_path, file_size := some c.utf8ByteSize }
  | none => { status := "error", message := some "Failed to read file: FileNotFoundError" }

/-- Result dictionary of `create_file` in `file_ops.py`.  The source stores
`str(file_path.absolute())` in `file_path`; resolution against the process
working directory is kept abstract, so the path is recorded as given. -/
structure CreateResult where
  status : String
  file_path : Option String := none
  message : Option String := none
  deriving Repr, DecidableEq

/-- `create_file(file_name, content)` from `file_ops.py`: runs
`Path(file_name).parent.mkdir(parents=True, exist_ok=True)`, then opens the
file for writing and writes `content`.  On the reference platform
`os.linesep = "\n"`, so text-mode write translation is the identity.
Opening for write raises when the target path exists as a directory. -/
def create_file (fs : FS) (file_name : String) (content : String) : FS × CreateResult :=
  match makedirs fs (parentDir file_name) true with
  | none => (fs, { status := "error", message := some "Failed to create file: NotADirectoryError" })
  | some fs1 =>
      if fs1.isDir file_name then
        (fs1, { status := "error", message := some "Failed to create file: IsADirectoryError" })
      else
        (fs1.setFile file_name content, { status := "success", file_path := some file_name })

/-- Result dictionary of `delete_file` in `file_ops.py`. -/
structure DeleteResult where
  status : String
  message : Option String := none
  deriving Repr, DecidableEq

/-- `delete_file(file_path)` from `file_ops.py`: when `os.path.exists` holds,
`os.remove` deletes a regular file (and raises on a directory, caught into an
error dictionary); otherwise the does-not-exist error dictionary is built. -/
def delete_file (fs : FS) (file_path : String) : FS × DeleteResult :=
  if fs.pathExists file_path then
    if fs.isDir file_path then
      (fs, { status := "error", message := some "Failed to delete file: IsADirectoryError" })
    else
      (fs.removeFile file_path,
       { status := "success",
         message := some ("File \x27" ++ file_path ++ "\x27 deleted successfully") })
  else
    (fs, { status := "error",
           message := some ("File \x27" ++ file_path ++ "\x27 does not exist") })

/-- One entry of the `failed_files` list built by `delete_files`. -/
structure FailedItem where
  file : String
  reason : String
  deriving Repr, DecidableEq

/-- Result dictionary of `delete_files` in `file_ops.py`. -/
structure DeleteFilesResult where
  status : String
  deleted_count : Option Nat := none
  failed_count : Option Nat := none
  deleted_files : Option (List String) := none
  failed_files : Option (List FailedItem) := none
  message : Option String := none
  deriving Repr, DecidableEq

/-- The per-path loop of `delete_files`: each path is processed in order,
its own failures recorded per item, never aborting the whole batch. -/
def deleteFilesLoop (fs : FS) (paths : List String) (deleted : List String)
    (failed : List FailedItem) : FS × List String × List FailedItem :=
  match paths with
  | [] => (fs, deleted, failed)
  | p :: rest =>
    if fs.pathExists p then
      if fs.isDir p then
        deleteFilesLoop fs rest deleted (failed ++ [{ file := p, reason := "IsADirectoryError" }])
      else
        deleteFilesLoop (fs.removeFile p) rest (deleted ++ [p]) failed
    else
      deleteFilesLoop fs rest deleted (failed ++ [{ file := p, reason := "File does not exist" }])

/-- `delete_files(file_path_list)` from `file_ops.py`: runs the loop and
reports `"success"` when the failed list is empty, `"partial"` otherwise,
with the counts and both item lists. -/
def delete_files (fs : FS) (file_path_list : List String) : FS × DeleteFilesResult :=
  let r := deleteFilesLoop fs file_path_list [] []
  (r.1,
   { status := if r.2.2.length = 0 then "success" else "partial",
     deleted_count := some r.2.1.length,
     failed_count := some r.2.2.length,
     deleted_files := some r.2.1,
     failed_files := some r.2.2 })

/-- Result dictionary of `file_exists` in `file_ops.py`.  The dictionary key
`"exists"` is rendered as `fileIsPresent` (`exists` is reserved in Lean). -/
structure FileExistsResult where
  status : String
  file_path : Option String := none
  fileIsPresent : Option Bool := none
  message : Option String := none
  deriving Repr, DecidableEq

/-- `file_exists(file_path)` from `file_ops.py`: wraps `os.path.isfile`,
which reports `False` for a nonexistent path instead of raising, so the
status is `"success"` even when nothing exists at the path. -/
def file_exists (fs : FS) (file_path : String) : FileExistsResult :=
  { status := "success", file_path := some file_path,
    fileIsPresent := some (fs.isFile file_path) }

/-- Normalise one bound of a Python slice `xs[a:b]` to a natural index:
negative indices count from the end, everything is clamped to `[0, len]`. -/
def pySliceBound (len : Nat) (i : Int) : Nat :=
  if i < 0 then ((len : Int) + i).toNat else min i.toNat len

/-- Python list slicing `xs[a:b]` with integer bounds. -/
def pySlice {α : Type} (xs : List α) (a b : Int) : List α :=
  (xs.take (pySliceBound xs.length b)).drop (pySliceBound xs.length a)

/-- `f.readlines()`: split the newline-translated content after every
`"\n"`, keeping the terminator on each line; no trailing empty entry. -/
def pyReadlines (s : String) : List String :=
  if s = "" then []
  else
    match (splitOnChar '\n' s).reverse with
    | [] => []
    | last :: revInit =>
        revInit.reverse.map (fun l => l ++ "\n") ++ (if last = "" then [] else [last])

/-- `line.rstrip("\n")`: drop trailing newline characters. -/
def pyRstripNl (s : String) : String :=
  String.mk ((s.data.reverse.dropWhile (fun c => c = '\n')).reverse)

/-- Python `str.strip()`: drop whitespace from both ends (whitespace
modelled by `Char.isWhitespace`). -/
def pyStrip (s : String) : String :=
  String.mk (((s.data.dropWhile Char.isWhitespace).reverse.dropWhile Char.isWhitespace).reverse)

/-- Python truthiness of an optional integer: `None` and `0` are falsy. -/
def intTruthy : Option Int → Bool
  | none => false
  | some n => n != 0

/-- Result dictionary of `get_file_lines` in `file_ops.py`. -/
structure LinesResult where
  status : String
  file_path : Option String := none
  total_lines : Option Nat := none
  start_line : Option Int := none
  end_line : Option Int := none
  lines : Option (List String) := none
  message : Option String := none
  deriving Repr, DecidableEq

/-- `get_file_lines(file_path, start_line, end_line)` from `file_ops.py`.
`start_idx = (start_line - 1) if start_line else 0` and
`end_idx = end_line if end_line else total_lines` use Python truthiness, so
a `0` bound falls back to its default exactly like `None`.  The returned
`start_line` is `start_idx + 1` (not clamped), the returned `end_line` is
`min(end_idx, total_lines)`. -/
def get_file_lines (fs : FS) (file_path : String) (start_line end_line : Option Int) : LinesResult :=
  match fs.fileContent file_path with
  | none => { status := "error", message := some "Failed to get file lines: FileNotFoundError" }
  | some raw =>
    let all_lines := pyReadlines (univNewlines raw)
    let total_lines : Nat := all_lines.length
    let start_idx : Int := if intTruthy start_line then start_line.getD 0 - 1 else 0
    let end_idx : Int := if intTruthy end_line then end_line.getD 0 else total_lines
    let selected_lines := pySlice all_lines start_idx end_idx
    { status := "success",
      file_path := some file_path,
      total_lines := some total_lines,
      start_line := some (start_idx + 1),
      end_line := some (min end_idx (total_lines : Int)),
      lines := some (selected_lines.map pyRstripNl) }

end FileOps

namespace TelegramBot

open FileOps

/-- An outbound effect of a message handler in `telegram_bot.py`: a chat
action, a reply or plain message, a document upload, or the (synchronous)
submission of the message to the external agent runtime via `runner.run` —
the only way any tool invocation can happen. -/
inductive Action where
  | sendChatAction (chat_id : Int) (action : String)
  | reply (chat_id : Int) (text : String)
  | sendMessage (chat_id : Int) (text : String)
  | sendDocument (chat_id : Int) (path : String) (caption : String)
  | agentRun (user_id : String) (session_id : String) (text : String)
  deriving Repr, DecidableEq

/-- `is_authorized(chat_id)` from `telegram_bot.py`:
`str(chat_id) in AUTHORIZED_CHAT_IDS or not AUTHORIZED_CHAT_IDS`. -/
def is_authorized (authorized_chat_ids : List String) (chat_id : Int) : Bool :=
  authorized_chat_ids.contains (toString chat_id) || authorized_chat_ids.isEmpty

/-- The mutable state of the bot process: the key set of the `user_contexts`
dictionary (its values are opaque session handles, so only key membership is
modelled), the session ids registered in the `InMemorySessionService`, and
the host filesystem. -/
structure BotState where
  user_contexts : List Int
  sessions : List String
  fs : FS
  deriving Repr, DecidableEq

/-- One part of an agent event: plain text, a function call (its arguments
already rendered through `json.dumps`/`str`), or a function response
rendered through `str`. -/
inductive Part where
  | text (s : String)
  | functionCall (name : String) (argsText : String)
  | functionResponse (responseText : String)
  deriving Repr, DecidableEq

/-- One event emitted by `runner.run`. -/
structure Event where
  hasContent : Bool
  isFinal : Bool
  parts : List Part
  deriving Repr, DecidableEq

/-- The event-collection loop of `handle_message` on a single event: an
event without content is skipped; a final event contributes its nonempty
text parts and its nonempty function-response texts; any other event
contributes tool-call previews and nonempty text parts.  Returns the pair
`(text_parts, tool_messages)` this event appends. -/
def collectEvent (e : Event) : List String × List String :=
  if !e.hasContent then ([], [])
  else if e.isFinal then
    (e.parts.filterMap (fun p => match p with
        | Part.text s => if s ≠ "" then some s else none
        | _ => none),
     e.parts.filterMap (fun p => match p with
        | Part.functionResponse r => if r ≠ "" then some r else none
        | _ => none))
  else
    (e.parts.filterMap (fun p => match p with
        | Part.text s => if s ≠ "" then some s else none
        | _ => none),
     e.parts.filterMap (fun p => match p with
        | Part.functionCall n a => some ("🔧 Tool call: " ++ n ++ "\n" ++ a)
        | _ => none))

/-- The full event loop: concatenation of the per-event contributions, in
emission order. -/
def collectEvents (events : List Event) : List String × List String :=
  ((events.map (fun e => (collectEvent e).1)).flatten,
   (events.map (fun e => (collectEvent e).2)).flatten)

/-- The reply-rendering step of `handle_message`: join the stripped nonempty
text parts with newlines, join the tool messages with blank lines, fall back
to the fixed apology when both are empty, then combine (the combined form
stripped again). -/
def renderFullMessage (events : List Event) : String :=
  let collected := collectEvents events
  let text_parts := collected.1
  let tool_messages := collected.2
  let agent_response := String.intercalate "\n"
    ((text_parts.filter (fun p => p ≠ "" && pyStrip p ≠ "")).map (fun p => pyStrip p))
  let extra_info := String.intercalate "\n\n" tool_messages
  let agent_response2 :=
    if agent_response = "" && extra_info = "" then
      "I processed your request but couldn\x27t generate a response. Please try again."
    else agent_response
  if extra_info = "" then agent_response2
  else pyStrip (agent_response2 ++ "\n\n" ++ extra_info)

/-- `handle_message` from `telegram_bot.py`, on a free-text message.  The
external agent runtime is abstracted by the list of events it emits, and the
wall clock by `now` (used only in the temporary file name).  Returns the new
process state and the outbound actions in order.  The handler never touches
`user_contexts` or the registered sessions; the runner is addressed purely
through the deterministic `user_id`/`session_id` strings. -/
def handle_message (st : BotState) (authorized_chat_ids : List String) (chat_id : Int)
    (text : String) (events : List Event) (now : Nat) : BotState × List Action :=
  if !is_authorized authorized_chat_ids chat_id then
    (st, [Action.reply chat_id "⛔ You are not authorized to use this bot."])
  else
    let user_id := toString chat_id
    let session_id := "session_" ++ toString chat_id
    let full_message := renderFullMessage events
    let before : List Action :=
      [Action.sendChatAction chat_id "typing",
       Action.reply chat_id "🤖 Processing your request...",
       Action.agentRun user_id session_id text]
    if full_message.length > 4096 then
      let temp_file := "response_" ++ toString chat_id ++ "_" ++ toString now ++ ".txt"
      let fs1 := st.fs.setFile temp_file full_message
      let fs2 := fs1.removeFile temp_file
      ({ st with fs := fs2 },
       before ++ [Action.sendDocument chat_id temp_file "📄 Response is too long, sent as file."])
    else
      (st, before ++ [Action.sendMessage chat_id full_message])

/-- `clear_context` from `telegram_bot.py` (the `/clear` handler): after the
authorization check, deletes the chat entry from `user_contexts` when
present, and replies.  Sessions registered in the session service are left
untouched. -/
def clear_context (st : BotState) (authorized_chat_ids : List String) (chat_id : Int) :
    BotState × List Action :=
  if !is_authorized authorized_chat_ids chat_id then
    (st, [Action.reply chat_id "⛔ You are not authorized to use this bot."])
  else
    ({ st with user_contexts := st.user_contexts.filter (fun c => !(c == chat_id)) },
     [Action.reply chat_id "🗑️ Conversation context cleared! Starting fresh."])

end TelegramBot

namespace FileOps

/-- A host with no files and no directories, used as a concrete state. -/
def emptyFS : FS := { files := [], dirs := [] }

/-- A host holding a single three-line file `"f"`. -/
def fsThreeLines : FS := { files := [("f", "l1\nl2\nl3")], dirs := [] }

/-- `find?` for key `q` is unaffected by filtering out bindings of a
different key `p`. -/
theorem find?_key_filter_ne (l : List (String × String)) (p q : String) (h : q ≠ p) :
    (l.filter (fun e => !(e.1 == p))).find? (fun e => e.1 == q) =
      l.find? (fun e => e.1 == q) := by
  induction l with
  | nil => rfl
  | cons e rest ih =>
    by_cases hp : e.1 = p
    · have h1 : (e.1 == p) = true := by simpa using hp
      have h2 : (e.1 == q) = false := by
        simp only [beq_eq_false_iff_ne]
        intro hqq
        exact h (hqq ▸ hp)
      simp [List.filter_cons, List.find?_cons, h1, h2, ih]
    · have h1 : (e.1 == p) = false := by simpa using hp
      by_cases hq : e.1 = q
      · have h2 : (e.1 == q) = true := by simpa using hq
        simp [List.filter_cons, List.find?_cons, h1, h2]
      · have h2 : (e.1 == q) = false := by simpa using hq
        simp [List.filter_cons, List.find?_cons, h1, h2, ih]

/-- Removing a file leaves every other path's file content unchanged. -/
theorem fileContent_removeFile_ne (fs : FS) (p q : String) (h : q ≠ p) :
    (fs.removeFile p).fileContent q = fs.fileContent q := by
  unfold FS.removeFile FS.fileContent
  simp only
  rw [find?_key_filter_ne fs.files p q h]

/-- After removing `p`, no file content remains at `p`. -/
theorem fileContent_removeFile_self (fs : FS) (p : String) :
    (fs.removeFile p).fileContent p = none := by
  unfold FS.removeFile FS.fileContent
  have : (fs.files.filter (fun e => !(e.1 == p))).find? (fun e => e.1 == p) = none := by
    rw [List.find?_eq_none]
    intro e he
    have := (List.mem_filter.mp he).2
    simp at this
    simpa using this
  simp [this]

/-- Removing a file changes no directory. -/
theorem isDir_removeFile (fs : FS) (p q : String) :
    (fs.removeFile p).isDir q = fs.isDir q := rfl

/-- Removing a file leaves existence of distinct paths unchanged. -/
theorem pathExists_removeFile_ne (fs : FS) (p q : String) (h : q ≠ p) :
    (fs.removeFile p).pathExists q = fs.pathExists q := by
  unfold FS.pathExists FS.isFile
  rw [fileContent_removeFile_ne fs p q h, isDir_removeFile]

/-- C1 counterexample: `file_exists` is a Tool Library operation
(registered in `multi-tool-agent/agent.py`), yet called on a nonexistent
path it returns status `"success"` carrying `exists = False` — not the
`"error"` status the claim requires of every tool operation. -/
theorem C1_counterexample :
    (file_exists emptyFS "/no/such/path").status = "success" ∧
    (file_exists emptyFS "/no/such/path").status ≠ "error" := by
  decide

/-- C1 (amended): tool operations never raise (every modelled operation is a
total function into a result value); the operations whose action requires
the target to exist — here `delete_file`, `read_file`, `get_file_lines` —
return status `"error"` on a nonexistent path, while the existence probe
`file_exists` returns `"success"` with `exists = False`. -/
theorem C1_nonexistent_path (fs : FS) (p : String) (h : fs.pathExists p = false) :
    (delete_file fs p).2.status = "error" ∧
    (read_file fs p).status = "error" ∧
    (get_file_lines fs p none none).status = "error" ∧
    (file_exists fs p).status = "success" ∧
    (file_exists fs p).fileIsPresent = some false := by
  have h2 := h
  rw [FS.pathExists, Bool.or_eq_false_iff] at h2
  obtain ⟨hf, hd⟩ := h2
  have hc : fs.fileContent p = none := by
    cases hx : fs.fileContent p with
    | none => rfl
    | some v => rw [FS.isFile, hx] at hf; simp at hf
  refine ⟨?_, ?_, ?_, ?_, ?_⟩
  · simp [delete_file, h]
  · simp [read_file, hc]
  · simp [get_file_lines, hc]
  · rfl
  · simp [file_exists, hf]

/-- C1 witness: the amended statement evaluated on the empty host and the
path `"/nope"`. -/
theorem C1_nonexistent_path_witness :
    (delete_file emptyFS "/nope").2.status = "error" ∧
    (read_file emptyFS "/nope").status = "error" ∧
    (get_file_lines emptyFS "/nope" none none).status = "error" ∧
    (file_exists emptyFS "/nope").status = "success" ∧
    (file_exists emptyFS "/nope").fileIsPresent = some false :=
  C1_nonexistent_path emptyFS "/nope" (by decide)

/-- C2 counterexample: deleting the single nonexistent path `"/n"` is the
case N = 1, K = 1; the code returns overall status `"partial"`, while the
claim allows `"partial"` only when `0 < K < N`. -/
theorem C2_counterexample :
    ¬ (((delete_files emptyFS ["/n"]).2.status = "partial") ↔
        ((0 : Nat) < 1 ∧ (1 : Nat) < 1)) := by
  decide

/-- The batch-deletion loop on pairwise-distinct, non-directory paths:
each existing path is deleted, each missing path is recorded as a failure,
and the accumulators grow by exactly those counts. -/
theorem deleteFilesLoop_counts (paths : List String) :
    ∀ (fs : FS) (deleted : List String) (failed : List FailedItem),
      paths.Nodup → (∀ p ∈ paths, fs.isDir p = false) →
      (deleteFilesLoop fs paths deleted failed).2.1.length =
          deleted.length + (paths.filter (fun p => fs.pathExists p)).length ∧
      (deleteFilesLoop fs paths deleted failed).2.2.length =
          failed.length + (paths.filter (fun p => !(fs.pathExists p))).length := by
  induction paths with
  | nil =>
    intro fs deleted failed _ _
    simp [deleteFilesLoop]
  | cons p rest ih =>
    intro fs deleted failed hnd hdir
    have hndr : rest.Nodup := hnd.of_cons
    have hpr : p ∉ rest := (List.nodup_cons.mp hnd).1
    have hdp : fs.isDir p = false := hdir p (List.mem_cons_self _ _)
    cases hex : fs.pathExists p with
    | false =>
      have hdirr : ∀ q ∈ rest, fs.isDir q = false :=
        fun q hq => hdir q (List.mem_cons_of_mem _ hq)
      obtain ⟨h1, h2⟩ :=
        ih fs deleted (failed ++ [{ file := p, reason := "File does not exist" }]) hndr hdirr
      rw [deleteFilesLoop, if_neg (by simp [hex])]
      constructor
      · rw [h1, List.filter_cons_of_neg (by simp [hex])]
      · rw [h2, List.filter_cons_of_pos (by simp [hex])]
        simp
        omega
    | true =>
      have hdirr : ∀ q ∈ rest, (fs.removeFile p).isDir q = false :=
        fun q hq => by rw [isDir_removeFile]; exact hdir q (List.mem_cons_of_mem _ hq)
      obtain ⟨h1, h2⟩ := ih (fs.removeFile p) (deleted ++ [p]) failed hndr hdirr
      have hfe : rest.filter (fun q => (fs.removeFile p).pathExists q) =
          rest.filter (fun q => fs.pathExists q) :=
        List.filter_congr
          (fun q hq => pathExists_removeFile_ne fs p q (fun he => hpr (he ▸ hq)))
      have hfn : rest.filter (fun q => !((fs.removeFile p).pathExists q)) =
          rest.filter (fun q => !(fs.pathExists q)) :=
        List.filter_congr
          (fun q hq => by rw [pathExists_removeFile_ne fs p q (fun he => hpr (he ▸ hq))])
      rw [deleteFilesLoop, if_pos (by simp [hex]), if_neg (by simp [hdp])]
      constructor
      · rw [h1, hfe, List.filter_cons_of_pos (by simp [hex])]
        simp
        omega
      · rw [h2, hfn, List.filter_cons_of_neg (by simp [hex])]

/-- C2 (amended): for every list of N pairwise-distinct file paths, none of
which names a directory, of which K do not exist: `deleted_count = N - K`,
`failed_count = K`, and the overall status is `"success"` iff `K = 0` and
`"partial"` iff `K > 0` — in particular the status is `"partial"`, not some
third value, even when all deletions fail (`K = N`). -/
theorem C2_delete_files_counts (fs : FS) (paths : List String)
    (hnd : paths.Nodup) (hdir : ∀ p ∈ paths, fs.isDir p = false) :
    (delete_files fs paths).2.deleted_count =
      some (paths.length - (paths.filter (fun p => !(fs.pathExists p))).length) ∧
    (delete_files fs paths).2.failed_count =
      some ((paths.filter (fun p => !(fs.pathExists p))).length) ∧
    ((delete_files fs paths).2.status = "success" ↔
      (paths.filter (fun p => !(fs.pathExists p))).length = 0) ∧
    ((delete_files fs paths).2.status = "partial" ↔
      0 < (paths.filter (fun p => !(fs.pathExists p))).length) := by
  obtain ⟨h1, h2⟩ := deleteFilesLoop_counts paths fs [] [] hnd hdir
  have hsum := List.length_eq_length_filter_add (l := paths) (fun p => fs.pathExists p)
  rw [delete_files]
  simp only at h1 h2 ⊢
  rw [h1, h2]
  have hsum2 : (paths.filter (fun p => fs.pathExists p)).length +
      (paths.filter (fun p => !(fs.pathExists p))).length = paths.length := by
    rw [hsum]
  refine ⟨by simp; omega, by simp, ?_, ?_⟩
  · cases hk : (paths.filter (fun p => !(fs.pathExists p))).length with
    | zero => simp
    | succ n => simp
  · cases hk : (paths.filter (fun p => !(fs.pathExists p))).length with
    | zero => simp
    | succ n => simp

/-- C2 witness: two distinct paths, one existing file `"f"` and one missing
path `"/n"` (N = 2, K = 1): one deletion, one failure, status `"partial"`. -/
theorem C2_delete_files_counts_witness :
    (delete_files fsThreeLines ["f", "/n"]).2.deleted_count = some 1 ∧
    (delete_files fsThreeLines ["f", "/n"]).2.failed_count = some 1 ∧
    (delete_files fsThreeLines ["f", "/n"]).2.status = "partial" := by
  obtain ⟨h1, h2, h3, h4⟩ :=
    C2_delete_files_counts fsThreeLines ["f", "/n"] (by decide)
      (by intro p hp; fin_cases hp <;> decide)
  refine ⟨?_, ?_, ?_⟩
  · rw [h1]; decide
  · rw [h2]; decide
  · rw [h4.mpr (by decide)]

/-- Dropping `min k len` elements, for `len` at least the length, is the
same as dropping `k`. -/
theorem drop_min_of_le {α : Type} (l : List α) (k len : Nat) (h : l.length ≤ len) :
    l.drop (min k len) = l.drop k := by
  rcases le_total k len with h2 | h2
  · rw [min_eq_left h2]
  · rw [min_eq_right h2, List.drop_eq_nil_of_le h, List.drop_eq_nil_of_le (le_trans h h2)]

/-- Taking `min k (length)` elements is the same as taking `k`. -/
theorem take_min_length {α : Type} (l : List α) (k : Nat) :
    l.take (min k l.length) = l.take k := by
  rcases le_total k l.length with h | h
  · rw [min_eq_left h]
  · rw [min_eq_right h, List.take_length, List.take_of_length_le h]

/-- Python slicing with nonnegative bounds is plain take-then-drop. -/
theorem pySlice_nonneg {α : Type} (xs : List α) (a b : Int) (ha : 0 ≤ a) (hb : 0 ≤ b) :
    pySlice xs a b = (xs.take b.toNat).drop a.toNat := by
  rw [pySlice, pySliceBound, pySliceBound, if_neg (by omega), if_neg (by omega),
    take_min_length, drop_min_of_le _ _ _ (by rw [List.length_take]; exact min_le_right _ _)]

/-- The `all_lines` list `get_file_lines` computes for raw content `c`:
the text-mode lines of the newline-translated content. -/
def fileLines (c : String) : List String := pyReadlines (univNewlines c)

/-- C3 counterexample: on the three-line file `"f"`, requesting
`start_line = 10` (with `end_line` omitted) answers `status = "success"`,
`total_lines = 3` and `start_line = 10`: the returned `start_line` field is
not clamped, so it exceeds the total line count, contradicting the claim
that the returned range fields never exceed it. -/
theorem C3_counterexample :
    (get_file_lines fsThreeLines "f" (some 10) none).status = "success" ∧
    (get_file_lines fsThreeLines "f" (some 10) none).total_lines = some 3 ∧
    (get_file_lines fsThreeLines "f" (some 10) none).start_line = some 10 ∧
    ¬ ((10 : Int) ≤ 3) := by
  decide

/-- C3 (amended): for every readable file and every provided 1-based bounds,
`get_file_lines` selects the 1-indexed inclusive range, an omitted bound
defaults to the corresponding end of the file, the status is `"success"`,
and the returned `end_line` equals `min(end_idx, total)` — never exceeding
the total line count, also when the requested `end_line` lies beyond it.
The returned `start_line`, however, echoes the requested start unclamped,
so it exceeds the total whenever the request does. -/
theorem C3_get_file_lines_range (fs : FS) (p c : String)
    (startOpt endOpt : Option Int)
    (hc : fs.fileContent p = some c)
    (hs : ∀ n, startOpt = some n → 1 ≤ n)
    (he : ∀ n, endOpt = some n → 1 ≤ n) :
    (get_file_lines fs p startOpt endOpt).status = "success" ∧
    (get_file_lines fs p startOpt endOpt).total_lines = some (fileLines c).length ∧
    (get_file_lines fs p startOpt endOpt).start_line = some (startOpt.getD 1) ∧
    (get_file_lines fs p startOpt endOpt).end_line =
      some (min (endOpt.getD ((fileLines c).length : Int)) ((fileLines c).length : Int)) ∧
    min (endOpt.getD ((fileLines c).length : Int)) ((fileLines c).length : Int) ≤
      ((fileLines c).length : Int) ∧
    (get_file_lines fs p startOpt endOpt).lines =
      some ((((fileLines c).take ((endOpt.getD ((fileLines c).length : Int)).toNat)).drop
        ((startOpt.getD 1).toNat - 1)).map pyRstripNl) := by
  rcases startOpt with _ | s
  · rcases endOpt with _ | e
    · refine ⟨?_, ?_, ?_, ?_, ?_, ?_⟩ <;>
        simp [get_file_lines, hc, intTruthy, fileLines, pySlice_nonneg, Int.natCast_nonneg]
    · have he1 : 1 ≤ e := he e rfl
      have heT : (e != 0) = true := by simp; omega
      have h0e : (0 : Int) ≤ e := by omega
      refine ⟨?_, ?_, ?_, ?_, ?_, ?_⟩ <;>
        simp [get_file_lines, hc, intTruthy, fileLines, pySlice_nonneg, Int.natCast_nonneg,
          heT, h0e]
  · have hs1 : 1 ≤ s := hs s rfl
    have hsT : (s != 0) = true := by simp; omega
    have h0s : (0 : Int) ≤ s - 1 := by omega
    have htn : (s - 1).toNat = s.toNat - 1 := by omega
    rcases endOpt with _ | e
    · refine ⟨?_, ?_, ?_, ?_, ?_, ?_⟩ <;>
        simp [get_file_lines, hc, intTruthy, fileLines, pySlice_nonneg, Int.natCast_nonneg,
          hsT, h0s, htn]
    · have he1 : 1 ≤ e := he e rfl
      have heT : (e != 0) = true := by simp; omega
      have h0e : (0 : Int) ≤ e := by omega
      refine ⟨?_, ?_, ?_, ?_, ?_, ?_⟩ <;>
        simp [get_file_lines, hc, intTruthy, fileLines, pySlice_nonneg, Int.natCast_nonneg,
          hsT, h0s, htn, heT, h0e]

/-- C3 witness: the amended statement evaluated on the three-line file with
`start_line = 2` and `end_line = 10`: success, `end_line` clamped to 3,
lines `["l2", "l3"]`. -/
theorem C3_get_file_lines_range_witness :
    (get_file_lines fsThreeLines "f" (some 2) (some 10)).status = "success" ∧
    (get_file_lines fsThreeLines "f" (some 2) (some 10)).total_lines = some 3 ∧
    (get_file_lines fsThreeLines "f" (some 2) (some 10)).start_line = some 2 ∧
    (get_file_lines fsThreeLines "f" (some 2) (some 10)).end_line = some 3 ∧
    (get_file_lines fsThreeLines "f" (some 2) (some 10)).lines = some ["l2", "l3"] := by
  obtain ⟨h1, h2, h3, h4, h5, h6⟩ :=
    C3_get_file_lines_range fsThreeLines "f" "l1\nl2\nl3" (some 2) (some 10)
      (by decide) (by intro n hn; cases hn; decide) (by intro n hn; cases hn; decide)
  refine ⟨h1, ?_, ?_, ?_, ?_⟩
  · rw [h2]; decide
  · rw [h3]; decide
  · rw [h4]; decide
  · rw [h6]; decide

/-- Universal-newline translation is the identity on carriage-return-free
character lists. -/
theorem univNewlinesList_no_cr (l : List Char) (h : ∀ c ∈ l, c ≠ '\r') :
    univNewlinesList l = l := by
  induction l with
  | nil => rfl
  | cons c rest ih =>
    have hc : c ≠ '\r' := h c (List.mem_cons_self _ _)
    have ih2 := ih (fun d hd => h d (List.mem_cons_of_mem _ hd))
    rw [univNewlinesList.eq_def]
    split
    · rename_i heq
      exact absurd heq (by simp)
    · rename_i heq
      injection heq with hch hrest
      exact absurd hch hc
    · rename_i heq
      injection heq with hch hrest
      exact absurd hch hc
    · rename_i heq
      injection heq with hch hrest
      exact absurd hch hc
    · rename_i heq
      injection heq with hch hrest
      subst hch
      subst hrest
      rw [ih2]

/-- Universal-newline translation is the identity on carriage-return-free
strings. -/
theorem univNewlines_no_cr (s : String) (h : ∀ c ∈ s.data, c ≠ '\r') :
    univNewlines s = s := by
  rw [univNewlines, univNewlinesList_no_cr s.data h]

/-- Looking up a path right after writing it finds the new content. -/
theorem fileContent_setFile_self (fs : FS) (p c : String) :
    (fs.setFile p c).fileContent p = some c := by
  simp [FS.setFile, FS.fileContent]

/-- An element contained in neither list is not contained in their append. -/
theorem contains_append_false (l1 l2 : List String) (a : String)
    (h1 : l1.contains a = false) (h2 : l2.contains a = false) :
    (l1 ++ l2).contains a = false := by
  simp_all

/-- C8: `create_file(path, content)` followed by `read_file(path)` succeeds
and returns `content` unchanged, for every path that is creatable (no file
occupies the parent directory chain, no directory occupies the path itself)
and every content free of carriage returns — which printable content is
(text-mode reading maps CR and CRLF to LF, so only such content is affected
by newline translation). -/
theorem C8_create_read_roundtrip (fs : FS) (path content : String)
    (h1 : (pathChain (parentDir path)).all (fun q => !(fs.isFile q)) = true)
    (h2 : fs.isDir path = false)
    (h3 : (pathChain (parentDir path)).contains path = false)
    (h4 : ∀ ch ∈ content.data, ch ≠ '\r') :
    (create_file fs path content).2.status = "success" ∧
    (read_file (create_file fs path content).1 path).status = "success" ∧
    (read_file (create_file fs path content).1 path).content = some content := by
  have hany : (pathChain (parentDir path)).any (fun q => fs.isFile q) = false := by
    rw [List.any_eq_false]
    intro x hx
    have := (List.all_eq_true.mp h1) x hx
    simp at this ⊢
    exact this
  have hmk : makedirs fs (parentDir path) true =
      some { fs with dirs := pathChain (parentDir path) ++ fs.dirs } := by
    rw [makedirs, if_neg (by simp [hany]), if_neg (by simp)]
  have hdir1 : ({ fs with dirs := pathChain (parentDir path) ++ fs.dirs } : FS).isDir path
      = false :=
    contains_append_false _ _ _ h3 h2
  have hcf : create_file fs path content =
      (({ fs with dirs := pathChain (parentDir path) ++ fs.dirs } : FS).setFile path content,
       { status := "success", file_path := some path }) := by
    rw [create_file, hmk]
    simp [hdir1]
  refine ⟨?_, ?_, ?_⟩
  · rw [hcf]
  · rw [hcf]
    simp [read_file, fileContent_setFile_self]
  · rw [hcf]
    simp [read_file, fileContent_setFile_self, univNewlines_no_cr content h4]

/-- C8 witness: the round trip evaluated on the empty host with the path
`"notes/a.txt"` and the content `"hello"`. -/
theorem C8_create_read_roundtrip_witness :
    (create_file emptyFS "notes/a.txt" "hello").2.status = "success" ∧
    (read_file (create_file emptyFS "notes/a.txt" "hello").1 "notes/a.txt").status
      = "success" ∧
    (read_file (create_file emptyFS "notes/a.txt" "hello").1 "notes/a.txt").content
      = some "hello" :=
  C8_create_read_roundtrip emptyFS "notes/a.txt" "hello" (by decide) (by decide) (by decide)
    (by decide)

/-- C9: directory creation is idempotent: on any host where the target path
chain is not occupied by a regular file (the only failure mode of
`os.makedirs(..., exist_ok=True)`), two identical `mkdir` calls both return
`"success"` — in particular creating an already-existing directory succeeds
rather than failing. -/
theorem C9_mkdir_idempotent (fs : FS) (dir_location dir_name : String)
    (h : (pathChain (osJoin dir_location dir_name)).all (fun q => !(fs.isFile q)) = true) :
    (mkdir fs dir_location dir_name).2.status = "success" ∧
    (mkdir (mkdir fs dir_location dir_name).1 dir_location dir_name).2.status = "success" := by
  have hany : (pathChain (osJoin dir_location dir_name)).any (fun q => fs.isFile q) = false := by
    rw [List.any_eq_false]
    intro x hx
    have := (List.all_eq_true.mp h) x hx
    simp at this ⊢
    exact this
  have hsome : makedirs fs (osJoin dir_location dir_name) true =
      some { fs with dirs := pathChain (osJoin dir_location dir_name) ++ fs.dirs } := by
    rw [makedirs, if_neg (by simp [hany]), if_neg (by simp)]
  have hany2 : (pathChain (osJoin dir_location dir_name)).any
      (fun q => ({ fs with dirs := pathChain (osJoin dir_location dir_name) ++ fs.dirs } : FS).isFile q)
      = false := hany
  have hsome2 : makedirs
      { fs with dirs := pathChain (osJoin dir_location dir_name) ++ fs.dirs }
      (osJoin dir_location dir_name) true =
      some { fs with dirs := pathChain (osJoin dir_location dir_name) ++
        (pathChain (osJoin dir_location dir_name) ++ fs.dirs) } := by
    rw [makedirs, if_neg (by simp [hany2]), if_neg (by simp)]
  constructor
  · simp [mkdir, hsome]
  · simp [mkdir, hsome, hsome2]

/-- C9 witness: both calls of `mkdir emptyFS "projects" "app"` succeed. -/
theorem C9_mkdir_idempotent_witness :
    (mkdir emptyFS "projects" "app").2.status = "success" ∧
    (mkdir (mkdir emptyFS "projects" "app").1 "projects" "app").2.status = "success" :=
  C9_mkdir_idempotent emptyFS "projects" "app" (by decide)

/-- C10: a zero bound is falsy in Python, so `get_file_lines` treats
`start_line = 0` and `end_line = 0` exactly like the omitted bound: the
default (start of file, resp. end of file) applies and the call returns
`"success"` on every readable file. -/
theorem C10_zero_bound_like_omitted (fs : FS) (p c : String) (other : Option Int)
    (hc : fs.fileContent p = some c) :
    get_file_lines fs p (some 0) other = get_file_lines fs p none other ∧
    get_file_lines fs p other (some 0) = get_file_lines fs p other none ∧
    (get_file_lines fs p (some 0) (some 0)).status = "success" := by
  refine ⟨?_, ?_, ?_⟩ <;> simp [get_file_lines, hc, intTruthy]

/-- C10 witness: on the three-line file, a zero bound coincides with the
omitted bound and the zero-zero call succeeds. -/
theorem C10_zero_bound_like_omitted_witness :
    get_file_lines fsThreeLines "f" (some 0) (some 2) =
      get_file_lines fsThreeLines "f" none (some 2) ∧
    get_file_lines fsThreeLines "f" (some 2) (some 0) =
      get_file_lines fsThreeLines "f" (some 2) none ∧
    (get_file_lines fsThreeLines "f" (some 0) (some 0)).status = "success" :=
  C10_zero_bound_like_omitted fsThreeLines "f" "l1\nl2\nl3" (some 2) (by decide)

end FileOps

namespace TelegramBot

open FileOps

/-- A concrete startup state: the allow-listed chat registered in
`user_contexts` and its session in the session service, empty filesystem. -/
def stInit : BotState :=
  { user_contexts := [7990300718], sessions := ["session_7990300718"], fs := emptyFS }

/-- A sample final agent event carrying one short text part. -/
def evSample : Event := { hasContent := true, isFinal := true, parts := [Part.text "ok"] }

/-- Filtering out an element leaves a list that does not contain it. -/
theorem contains_filter_beq_false (l : List Int) (a : Int) :
    (l.filter (fun c => !(c == a))).contains a = false := by
  simp

/-- C5: when the configured allow-list of chat identifiers is empty, the
authorization check passes for every chat identifier —
`not AUTHORIZED_CHAT_IDS` is true, so `is_authorized` answers true
regardless of membership. -/
theorem C5_empty_allowlist_allows_all (chat_id : Int) :
    is_authorized [] chat_id = true := by
  simp [is_authorized]

/-- C4 counterexample: starting from the startup state, the authorized chat
sends `/clear` (which evicts its `user_contexts` entry) and then a free-text
message; after that message is handled the entry is still absent —
`handle_message` never writes to `user_contexts`, so no lazy recreation
happens, contradicting the claim. -/
theorem C4_counterexample :
    ((handle_message (clear_context stInit ["7990300718"] 7990300718).1
        ["7990300718"] 7990300718 "hello" [evSample] 17).1).user_contexts.contains
      7990300718 = false := by
  decide

/-- C4 (amended): an authorized `/clear` evicts the chat's entry from
`user_contexts` and leaves the registered sessions untouched; the chat's
next free-text message is handled WITHOUT recreating the entry —
`handle_message` leaves `user_contexts` unchanged and simply addresses the
runner by the deterministic session id, which `/clear` never deleted. -/
theorem C4_clear_evicts_no_recreate (st : BotState) (allow : List String) (chat : Int)
    (h : is_authorized allow chat = true) (text : String) (events : List Event) (now : Nat) :
    ((clear_context st allow chat).1).user_contexts.contains chat = false ∧
    ((clear_context st allow chat).1).sessions = st.sessions ∧
    ((handle_message (clear_context st allow chat).1 allow chat text events now).1).user_contexts
      = ((clear_context st allow chat).1).user_contexts := by
  have hcl : clear_context st allow chat =
      ({ st with user_contexts := st.user_contexts.filter (fun c => !(c == chat)) },
       [Action.reply chat "🗑️ Conversation context cleared! Starting fresh."]) := by
    rw [clear_context, if_neg (by simp [h])]
  refine ⟨?_, ?_, ?_⟩
  · rw [hcl]
    exact contains_filter_beq_false st.user_contexts chat
  · rw [hcl]
  · rw [handle_message, if_neg (by simp [h])]
    by_cases hlen : (renderFullMessage events).length > 4096
    · simp only [if_pos hlen]
    · simp only [if_neg hlen]

/-- C4 witness: the amended statement evaluated on the startup state. -/
theorem C4_clear_evicts_no_recreate_witness :
    ((clear_context stInit ["7990300718"] 7990300718).1).user_contexts.contains
      7990300718 = false ∧
    ((clear_context stInit ["7990300718"] 7990300718).1).sessions = stInit.sessions ∧
    ((handle_message (clear_context stInit ["7990300718"] 7990300718).1
        ["7990300718"] 7990300718 "hello" [evSample] 17).1).user_contexts
      = ((clear_context stInit ["7990300718"] 7990300718).1).user_contexts :=
  C4_clear_evicts_no_recreate stInit ["7990300718"] 7990300718 (by decide) "hello"
    [evSample] 17

/-- C6: a message from a chat whose identifier is missing from the
non-empty allow-list is answered with exactly the fixed rejection reply,
the state is unchanged, and no `runner.run` submission (the only path to
any tool invocation) occurs. -/
theorem C6_unauthorized_no_agent_run (st : BotState) (allow : List String) (chat : Int)
    (hne : allow ≠ []) (hmem : allow.contains (toString chat) = false)
    (text : String) (events : List Event) (now : Nat) :
    handle_message st allow chat text events now =
      (st, [Action.reply chat "⛔ You are not authorized to use this bot."]) ∧
    ∀ u s q, Action.agentRun u s q ∉ (handle_message st allow chat text events now).2 := by
  have hauth : is_authorized allow chat = false := by
    rw [is_authorized, hmem]
    simp [List.isEmpty_eq_false.mpr hne]
  have hhm : handle_message st allow chat text events now =
      (st, [Action.reply chat "⛔ You are not authorized to use this bot."]) := by
    rw [handle_message, if_pos (by simp [hauth])]
  refine ⟨hhm, ?_⟩
  intro u s q hmem2
  rw [hhm] at hmem2
  simp at hmem2

/-- C6 witness: the unauthorized chat 42 gets the rejection reply and an
unchanged state. -/
theorem C6_unauthorized_no_agent_run_witness :
    handle_message stInit ["7990300718"] 42 "hi" [evSample] 0 =
      (stInit, [Action.reply 42 "⛔ You are not authorized to use this bot."]) :=
  (C6_unauthorized_no_agent_run stInit ["7990300718"] 42 (by decide) (by decide) "hi"
    [evSample] 0).1

/-- C7: for an authorized free-text message, when the rendered reply
exceeds 4096 characters the handler writes it to the temporary file
`response_{chat}_{now}.txt`, sends it as a document attachment, and removes
the temporary file (no content remains at that path afterwards); when the
rendered reply is at or below 4096 characters it is sent as plain text and
the state is untouched. -/
theorem C7_reply_delivery (st : BotState) (allow : List String) (chat : Int)
    (h : is_authorized allow chat = true) (text : String) (events : List Event) (now : Nat) :
    ((renderFullMessage events).length > 4096 →
      (handle_message st allow chat text events now).2 =
        [Action.sendChatAction chat "typing",
         Action.reply chat "🤖 Processing your request...",
         Action.agentRun (toString chat) ("session_" ++ toString chat) text,
         Action.sendDocument chat
           ("response_" ++ toString chat ++ "_" ++ toString now ++ ".txt")
           "📄 Response is too long, sent as file."] ∧
      ((handle_message st allow chat text events now).1).fs.fileContent
        ("response_" ++ toString chat ++ "_" ++ toString now ++ ".txt") = none ∧
      ((handle_message st allow chat text events now).1).user_contexts
        = st.user_contexts) ∧
    ((renderFullMessage events).length ≤ 4096 →
      (handle_message st allow chat text events now).2 =
        [Action.sendChatAction chat "typing",
         Action.reply chat "🤖 Processing your request...",
         Action.agentRun (toString chat) ("session_" ++ toString chat) text,
         Action.sendMessage chat (renderFullMessage events)] ∧
      (handle_message st allow chat text events now).1 = st) := by
  constructor
  · intro hlen
    have hhm : handle_message st allow chat text events now =
        (BotState.mk st.user_contexts st.sessions
          (FS.removeFile
            (FS.setFile st.fs
              ("response_" ++ toString chat ++ "_" ++ toString now ++ ".txt")
              (renderFullMessage events))
            ("response_" ++ toString chat ++ "_" ++ toString now ++ ".txt")),
         [Action.sendChatAction chat "typing",
          Action.reply chat "🤖 Processing your request...",
          Action.agentRun (toString chat) ("session_" ++ toString chat) text,
          Action.sendDocument chat
            ("response_" ++ toString chat ++ "_" ++ toString now ++ ".txt")
            "📄 Response is too long, sent as file."]) := by
      rw [handle_message, if_neg (by simp [h])]
      simp only [if_pos hlen]
      rfl
    refine ⟨by rw [hhm], ?_, by rw [hhm]⟩
    rw [hhm]
    exact fileContent_removeFile_self _ _
  · intro hlen
    have hhm : handle_message st allow chat text events now =
        (st,
         [Action.sendChatAction chat "typing",
          Action.reply chat "🤖 Processing your request...",
          Action.agentRun (toString chat) ("session_" ++ toString chat) text,
          Action.sendMessage chat (renderFullMessage events)]) := by
      rw [handle_message, if_neg (by simp [h])]
      simp only [if_neg (by omega : ¬ (renderFullMessage events).length > 4096)]
      rfl
    exact ⟨by rw [hhm], by rw [hhm]⟩

/-- A final agent event carrying a 5000-character text part. -/
def evLong : Event :=
  { hasContent := true, isFinal := true,
    parts := [Part.text (String.mk (List.replicate 5000 'a'))] }

/-- `dropWhile` does nothing on a replicated character the predicate
rejects. -/
theorem dropWhile_replicate_not (p : Char → Bool) (c : Char) (n : Nat) (h : p c = false) :
    List.dropWhile p (List.replicate n c) = List.replicate n c := by
  cases n with
  | zero => rfl
  | succ m =>
    rw [List.replicate_succ, List.dropWhile_cons_of_neg (by simp [h])]

/-- Stripping the 5000-character all-letter payload changes nothing. -/
theorem pyStrip_evLong :
    pyStrip (String.mk (List.replicate 5000 'a')) = String.mk (List.replicate 5000 'a') := by
  rw [pyStrip]
  show String.mk ((((List.replicate 5000 'a').dropWhile
    Char.isWhitespace).reverse.dropWhile Char.isWhitespace).reverse) = _
  rw [dropWhile_replicate_not _ _ _ (by decide), List.reverse_replicate,
    dropWhile_replicate_not _ _ _ (by decide), List.reverse_replicate]

/-- A string of a positively replicated character is not empty. -/
theorem replicate_string_ne_empty (n : Nat) (c : Char) (h : 0 < n) :
    String.mk (List.replicate n c) ≠ "" := by
  intro hcontra
  have h2 : List.replicate n c = ([] : List Char) := congrArg String.data hcontra
  have h3 := congrArg List.length h2
  rw [List.length_replicate, List.length_nil] at h3
  omega

/-- The handler renders the single long text part to itself. -/
theorem renderFullMessage_evLong :
    renderFullMessage [evLong] = String.mk (List.replicate 5000 'a') := by
  have hne := replicate_string_ne_empty 5000 'a' (by omega)
  have hstrip := pyStrip_evLong
  rw [show evLong =
    Event.mk true true [Part.text (String.mk (List.replicate 5000 'a'))] from rfl]
  generalize hgen : String.mk (List.replicate 5000 'a') = s at hne hstrip ⊢
  rw [renderFullMessage, collectEvents]
  simp [collectEvent, hne, hstrip, String.intercalate, String.intercalate.go]

/-- C7 witness: a 5000-character reply is delivered as a document and the
temporary file is gone from the filesystem afterwards. -/
theorem C7_reply_delivery_witness :
    (renderFullMessage [evLong]).length > 4096 ∧
    (handle_message stInit ["7990300718"] 7990300718 "q" [evLong] 5).2 =
      [Action.sendChatAction 7990300718 "typing",
       Action.reply 7990300718 "🤖 Processing your request...",
       Action.agentRun (toString (7990300718 : Int))
         ("session_" ++ toString (7990300718 : Int)) "q",
       Action.sendDocument 7990300718
         ("response_" ++ toString (7990300718 : Int) ++ "_" ++ toString (5 : Nat) ++ ".txt")
         "📄 Response is too long, sent as file."] ∧
    ((handle_message stInit ["7990300718"] 7990300718 "q" [evLong] 5).1).fs.fileContent
      ("response_" ++ toString (7990300718 : Int) ++ "_" ++ toString (5 : Nat) ++ ".txt")
      = none := by
  have hlen : (renderFullMessage [evLong]).length > 4096 := by
    rw [renderFullMessage_evLong]
    show (List.replicate 5000 'a').length > 4096
    rw [List.length_replicate]
    norm_num
  obtain ⟨hbig, _⟩ :=
    C7_reply_delivery stInit ["7990300718"] 7990300718 (by decide) "q" [evLong] 5
  obtain ⟨ha, hb, _⟩ := hbig hlen
  exact ⟨hlen, ha, hb⟩

end TelegramBot
